import Mathlib

/-!
Verification of the memory-trigger subsystem of the
Context-Tracking-Memory-MGMT-UX-POC repository.

The Python sources under scripts/ are shallowly embedded as executable Lean
definitions: strings are `List Char` where character-level reasoning is
needed and `String` elsewhere, Python `int` is `Int`, fallible detector
evaluation is `Except`, and the impure inputs (timestamps, uuids, the
filesystem, the external memory server) are explicit parameters.
-/

namespace MemSys

/-! ## Python string primitives

`pyRstrip strip s` embeds Python `s.rstrip(strip)`: it removes from the right
end of `s` every character that is a member of the character set `strip`
(note: a character set, not a suffix). -/

def pyRstrip (strip : List Char) (s : List Char) : List Char :=
  ((s.reverse).dropWhile (fun c => strip.contains c)).reverse

/-- Embedding of the specific call `.replace('http://', 'https://')` from
`project_tracker.projects_match`: a left-to-right, non-overlapping scan
replacing every occurrence, exactly as Python `str.replace` does. -/
def pyReplaceHttp : List Char → List Char
  | 'h' :: 't' :: 't' :: 'p' :: ':' :: '/' :: '/' :: rest =>
      'h' :: 't' :: 't' :: 'p' :: 's' :: ':' :: '/' :: '/' :: pyReplaceHttp rest
  | c :: rest => c :: pyReplaceHttp rest
  | [] => []

/-- The character set handed to `rstrip` in `projects_match`
(`remote.rstrip('.git')`). -/
def gitChars : List Char := ['.', 'g', 'i', 't']

/-- Embedding of the URL normalization in `ProjectTracker.projects_match`
(project_tracker.py lines 104-105):
`remote.rstrip('.git').replace('http://', 'https://')`. -/
def normalizeRemoteUrl (u : List Char) : List Char :=
  pyReplaceHttp (pyRstrip gitChars u)

/-! ## ProjectTracker (project_tracker.py) -/

/-- The fields of a project-metadata dict that `projects_match` reads.
A field is `none` when the key is absent or `None`; Python's truthiness
additionally treats the empty string as false (`truthyStr`). -/
structure PyProject where
  absolute_path : Option (List Char)
  git_remote_url : Option (List Char)

def truthyStr : Option (List Char) → Bool
  | none => false
  | some s => !s.isEmpty

/-- Embedding of `ProjectTracker.projects_match` (project_tracker.py lines
81-130).  `resolve` stands for the filesystem-dependent
`str(Path(p).resolve())` used only in the local-path fallback branch. -/
def projects_match (resolve : List Char → List Char) (a b : PyProject) : Bool :=
  if truthyStr a.git_remote_url && truthyStr b.git_remote_url then
    let ra := normalizeRemoteUrl (a.git_remote_url.getD [])
    let rb := normalizeRemoteUrl (b.git_remote_url.getD [])
    if ra = rb then true
    else if a.absolute_path = b.absolute_path then
      -- source comment: "Still same project, just remote changed"
      true
    else false
  else if truthyStr a.absolute_path && truthyStr b.absolute_path then
    resolve (a.absolute_path.getD []) = resolve (b.absolute_path.getD [])
  else false

/-- The slice of the active-project state file that `detect_switch` reads. -/
structure ActiveProjectState where
  project : Option PyProject

/-- Embedding of `ProjectTracker.detect_switch` (project_tracker.py lines
132-161).  `activeState` is the parsed content of the active-project file
(`none` for a missing/unreadable file or falsy state). -/
def detect_switch (resolve : List Char → List Char) (current : PyProject)
    (activeState : Option ActiveProjectState) : Bool × Option ActiveProjectState :=
  match activeState with
  | none => (false, none)
  | some st =>
    match st.project with
    | none => (false, none)
    | some active =>
      if projects_match resolve current active then (false, some st)
      else (true, some st)

/-! ## ProjectSwitchDetector comparison, modelled from the spec

The file scripts/memory_detectors/project_switch_detector.py is not present
under src (only its test suite is), so its comparison logic is modelled from
the spec. -/

inductive SwitchType where
  | directory
  | remote
  | branch
deriving DecidableEq

structure SpecProjectMeta where
  name : List Char
  absolute_path : List Char
  git_remote_url : List Char
  git_branch : List Char

structure SpecSwitchConfig where
  detect_branch_switch : Bool
  major_branches : List (List Char)

/-- Modelled from the spec: the remote-URL normalization of §4.5 step 3b
("strip trailing `.git`, rewrite `http://`→`https://`, before comparing")
for the missing project_switch_detector.py. -/
def specNormalizeRemote (u : List Char) : List Char :=
  let stripped :=
    if ['.', 'g', 'i', 't'].isSuffixOf u then u.take (u.length - 4) else u
  if ['h', 't', 't', 'p', ':', '/', '/'].isPrefixOf stripped then
    ['h', 't', 't', 'p', 's', ':', '/', '/'] ++ stripped.drop 7
  else stripped

/-- Modelled from the spec: the comparison precedence of
`ProjectSwitchDetector.evaluate` (§4.5 step 3, missing from src): directory
switch, then remote switch, then major-branch switch; `none` means the two
metadata records are decided to be the same project (no switch). -/
def specDetectSwitchType (cfg : SpecSwitchConfig)
    (prev cur : SpecProjectMeta) : Option SwitchType :=
  if cur.absolute_path ≠ prev.absolute_path then some SwitchType.directory
  else if specNormalizeRemote cur.git_remote_url ≠ specNormalizeRemote prev.git_remote_url then
    some SwitchType.remote
  else if cur.git_branch ≠ prev.git_branch ∧ cfg.detect_branch_switch = true ∧
      (prev.git_branch ∈ cfg.major_branches ∨ cur.git_branch ∈ cfg.major_branches) then
    some SwitchType.branch
  else none

/-! ## JSON values and Python `json.dumps`

`query_params` values, memory-server results and the persisted state are
Python JSON-ish values.  `jsonDumps` embeds `json.dumps(x)` with its default
options (separators `', '` and `': '`, `ensure_ascii=True`): the single
token-accounting primitive `MemoryClient.estimate_tokens` is defined from
its output length. -/

inductive PyVal where
  | pyNone : PyVal
  | pyBool : Bool → PyVal
  | pyInt : Int → PyVal
  | pyStr : List Char → PyVal
  | pyList : List PyVal → PyVal
  | pyDict : List (List Char × PyVal) → PyVal

def nibbleChar (n : Nat) : Char :=
  if n < 10 then Char.ofNat ('0'.toNat + n) else Char.ofNat ('a'.toNat + n - 10)

def fourHex (n : Nat) : List Char :=
  [nibbleChar (n / 4096 % 16), nibbleChar (n / 256 % 16),
    nibbleChar (n / 16 % 16), nibbleChar (n % 16)]

/-- Per-character JSON string escaping as `json.dumps` performs it with
`ensure_ascii=True` (non-ASCII and control characters become `\uXXXX`,
astral characters a surrogate pair). -/
def escapeChar (c : Char) : List Char :=
  if c = '"' then ['\\', '"']
  else if c = '\\' then ['\\', '\\']
  else if c = '\n' then ['\\', 'n']
  else if c = '\t' then ['\\', 't']
  else if c = '\r' then ['\\', 'r']
  else if c.toNat = 8 then ['\\', 'b']
  else if c.toNat = 12 then ['\\', 'f']
  else if c.toNat < 32 ∨ c.toNat > 126 then
    if c.toNat < 65536 then '\\' :: 'u' :: fourHex c.toNat
    else
      ('\\' :: 'u' :: fourHex (55296 + (c.toNat - 65536) / 1024)) ++
        ('\\' :: 'u' :: fourHex (56320 + (c.toNat - 65536) % 1024))
  else [c]

def escapeString (s : List Char) : List Char :=
  '"' :: (s.flatMap escapeChar) ++ ['"']

mutual
def jsonDumps : PyVal → List Char
  | .pyNone => ['n', 'u', 'l', 'l']
  | .pyBool true => ['t', 'r', 'u', 'e']
  | .pyBool false => ['f', 'a', 'l', 's', 'e']
  | .pyInt n => (toString n).toList
  | .pyStr s => escapeString s
  | .pyList [] => ['[', ']']
  | .pyList (x :: xs) => '[' :: jsonDumps x ++ jsonDumpsElems xs ++ [']']
  | .pyDict [] => ['\x7b', '\x7d']
  | .pyDict ((k, v) :: fs) =>
      '\x7b' :: escapeString k ++ (':' :: ' ' :: jsonDumps v) ++ jsonDumpsFields fs ++ ['\x7d']

def jsonDumpsElems : List PyVal → List Char
  | [] => []
  | x :: xs => ',' :: ' ' :: jsonDumps x ++ jsonDumpsElems xs

def jsonDumpsFields : List (List Char × PyVal) → List Char
  | [] => []
  | (k, v) :: fs =>
      ',' :: ' ' :: escapeString k ++ (':' :: ' ' :: jsonDumps v) ++ jsonDumpsFields fs
end

/-- Python truthiness of a JSON-ish value (`if result:` in `query_memory`). -/
def pyTruthy : PyVal → Bool
  | .pyNone => false
  | .pyBool b => b
  | .pyInt n => n != 0
  | .pyStr s => !s.isEmpty
  | .pyList xs => !xs.isEmpty
  | .pyDict fs => !fs.isEmpty

def pyOptTruthy : Option PyVal → Bool
  | none => false
  | some j => pyTruthy j

/-- Embedding of `MemoryClient.estimate_tokens` (memory_client.py lines
187-207): `0` for `None`, else `len(json.dumps(result)) // 4`. -/
def estimate_tokens : Option PyVal → Int
  | none => 0
  | some j => ((jsonDumps j).length / 4 : Nat)

/-! ## Engine data model (memory_detectors/__init__.py, memory_trigger_engine.py) -/

/-- Embedding of the `TriggerResult` dataclass
(memory_detectors/__init__.py lines 17-45). -/
structure TriggerResult where
  triggered : Bool
  confidence : ℚ
  estimated_tokens : Int
  query_type : String
  query_params : List (String × PyVal)
  reason : String

/-- A detector as the engine sees it: identity fields from
`MemoryDetector.__init__` plus its `evaluate` method; an exception raised by
`evaluate` is `Except.error`.  The context dict is passed through opaquely. -/
structure DetectorImpl where
  name : String
  priority : Int
  enabled : Bool
  evaluate : String → List (String × PyVal) → Except String (Option TriggerResult)

/-- Embedding of `DetectorRegistry.get_enabled_detectors`
(memory_detectors/__init__.py lines 158-165). -/
def get_enabled_detectors (regs : List DetectorImpl) : List DetectorImpl :=
  regs.filter (fun d => d.enabled)

/-- Stable insertion of a detector into a priority-sorted list: the stable
`list.sort(key=lambda d: d.priority)` places an earlier-listed detector
before later ones of equal priority. -/
def orderedInsertDet (d : DetectorImpl) : List DetectorImpl → List DetectorImpl
  | [] => [d]
  | e :: es => if d.priority ≤ e.priority then d :: e :: es else e :: orderedInsertDet d es

/-- Stable sort by ascending priority, embedding Python's stable
`list.sort(key=lambda d: d.priority)`. -/
def sortByPriority : List DetectorImpl → List DetectorImpl
  | [] => []
  | d :: ds => orderedInsertDet d (sortByPriority ds)

/-- Embedding of `DetectorRegistry.register` (memory_detectors/__init__.py
lines 137-156): drop any existing detector with the same name, append, then
stable-sort by priority. -/
def register (regs : List DetectorImpl) (d : DetectorImpl) : List DetectorImpl :=
  sortByPriority ((regs.filter (fun e => e.name ≠ d.name)) ++ [d])

/-- One entry of the persisted `triggers_fired` list
(memory_trigger_engine.py lines 364-369). -/
structure FiredTrigger where
  timestamp : String
  detector : String
  tokens : Int
  reason : String

/-- Embedding of the persisted engine state (state file / `_load_state`). -/
structure EngineState where
  session_id : String
  session_start : String
  tokens_used : Int
  triggers_fired : List FiredTrigger

/-- The fresh state `_load_state` builds when the state file is missing or
unreadable (memory_trigger_engine.py lines 314-320); the uuid and timestamp
are impure inputs, passed explicitly. -/
def freshState (sid start : String) : EngineState :=
  { session_id := sid, session_start := start, tokens_used := 0, triggers_fired := [] }

/-- The `budget` section of the engine configuration.  Note the engine reads
only `max_tokens_per_session`; `max_tokens_per_trigger` is carried in the
config but never consulted by `_check_budget`. -/
structure BudgetConfig where
  max_tokens_per_session : Int
  max_tokens_per_trigger : Int

/-- Embedding of `MemoryTriggerEngine._check_budget`
(memory_trigger_engine.py lines 340-353):
`(current_usage + additional_tokens) <= max_tokens`. -/
def check_budget (maxTokens currentUsage additionalTokens : Int) : Bool :=
  currentUsage + additionalTokens ≤ maxTokens

/-- Embedding of `MemoryTriggerEngine._record_trigger`
(memory_trigger_engine.py lines 355-370); `ts` is the impure
`datetime.now().isoformat()`. -/
def record_trigger (st : EngineState) (tr : TriggerResult) (actualTokens : Int)
    (ts : String) : EngineState :=
  { st with
    tokens_used := st.tokens_used + actualTokens,
    triggers_fired := st.triggers_fired ++
      [{ timestamp := ts, detector := tr.query_type, tokens := actualTokens,
         reason := tr.reason }] }

/-- The detector loop of `evaluate_triggers` (memory_trigger_engine.py lines
131-152).  Along with the engine's answer it returns the trace of detector
names whose `evaluate` was invoked, so that "detector d was never evaluated"
is expressible.  An `Except.error` from `evaluate` is the caught-exception
branch (log and `continue`); a triggered result failing the per-trigger
budget check is skipped (`continue`). -/
def evalDetectorLoop (maxTokens tokensUsed : Int) (prompt : String)
    (ctx : List (String × PyVal)) : List DetectorImpl → Option TriggerResult × List String
  | [] => (none, [])
  | d :: ds =>
    match d.evaluate prompt ctx with
    | .error _ =>
        let r := evalDetectorLoop maxTokens tokensUsed prompt ctx ds
        (r.1, d.name :: r.2)
    | .ok none =>
        let r := evalDetectorLoop maxTokens tokensUsed prompt ctx ds
        (r.1, d.name :: r.2)
    | .ok (some res) =>
        if res.triggered then
          if check_budget maxTokens tokensUsed res.estimated_tokens then
            (some res, [d.name])
          else
            let r := evalDetectorLoop maxTokens tokensUsed prompt ctx ds
            (r.1, d.name :: r.2)
        else
          let r := evalDetectorLoop maxTokens tokensUsed prompt ctx ds
          (r.1, d.name :: r.2)

/-- Embedding of `MemoryTriggerEngine.evaluate_triggers`
(memory_trigger_engine.py lines 101-155) for an explicitly supplied context:
the global budget gate `if not self._check_budget(): return None` (zero
additional tokens), then the detector loop over
`registry.get_enabled_detectors()`.  The second component is the trace of
evaluated detector names. -/
def evaluate_triggers (budget : BudgetConfig) (st : EngineState)
    (registry : List DetectorImpl) (prompt : String)
    (ctx : List (String × PyVal)) : Option TriggerResult × List String :=
  if !(check_budget budget.max_tokens_per_session st.tokens_used 0) then
    (none, [])
  else
    evalDetectorLoop budget.max_tokens_per_session st.tokens_used prompt ctx
      (get_enabled_detectors registry)

/-- The memory client as `query_memory` consumes it: an availability flag
and the response of the external server to the routed call, abstracted as a
function of the trigger's query type and params (the server is out of
scope). -/
structure MemClientModel where
  available : Bool
  respond : String → List (String × PyVal) → Option PyVal

/-- Whether `query_memory` routes this query type to a client call; any
other type is the "Unknown query type" warning branch resolving to `None`. -/
def knownQueryType (qt : String) : Bool :=
  qt = "keyword_search" || qt = "entity_details" || qt = "project_context" ||
    qt = "threshold_check"

/-- Embedding of `MemoryTriggerEngine.query_memory`
(memory_trigger_engine.py lines 157-212): return `None` without a call when
the client is unavailable; route known query types to the client; on a
truthy result record `estimate_tokens(result)` — not the trigger's
`estimated_tokens` — into the state via `_record_trigger`. -/
def query_memory (client : MemClientModel) (st : EngineState)
    (tr : TriggerResult) (ts : String) : Option PyVal × EngineState :=
  if !client.available then (none, st)
  else
    let result : Option PyVal :=
      if knownQueryType tr.query_type then client.respond tr.query_type tr.query_params
      else none
    if pyOptTruthy result then
      (result, record_trigger st tr (estimate_tokens result) ts)
    else (result, st)

/-! ## Engine initialization (memory_trigger_engine.py lines 33-58) -/

structure DetectorConfigEntry where
  enabled : Bool
  priority : Int

/-- The `detectors` section of the built-in default configuration
(memory_trigger_engine.py lines 282-303). -/
structure DetectorsConfig where
  project_switch : DetectorConfigEntry
  keyword : DetectorConfigEntry

structure EngineConfig where
  detectors : DetectorsConfig
  budget : BudgetConfig

/-- The built-in default configuration `_load_config` falls back to
(memory_trigger_engine.py lines 281-303). -/
def defaultEngineConfig : EngineConfig :=
  { detectors :=
      { project_switch := { enabled := true, priority := 1 },
        keyword := { enabled := true, priority := 2 } },
    budget := { max_tokens_per_session := 5000, max_tokens_per_trigger := 500 } }

structure EngineModel where
  config : EngineConfig
  registry : List DetectorImpl
  state : EngineState

/-- Embedding of `MemoryTriggerEngine.__init__` (memory_trigger_engine.py
lines 33-58): it loads the config, sets `self.registry = DetectorRegistry()`
(empty), constructs the memory client, and loads state.  No statement of the
constructor registers a detector. -/
def engineInit (cfg : EngineConfig) (loadedState : EngineState) : EngineModel :=
  { config := cfg, registry := [], state := loadedState }

/-- The invariant of §3 of the spec: `tokens_used` equals the sum of the
`tokens` fields over `triggers_fired`. -/
def stateInvariant (st : EngineState) : Prop :=
  st.tokens_used = (st.triggers_fired.map FiredTrigger.tokens).sum

instance (st : EngineState) : Decidable (stateInvariant st) := by
  unfold stateInvariant; infer_instance

def gitSuffixChars : List Char := ['.', 'g', 'i', 't']

def httpSchemeChars : List Char := ['h', 't', 't', 'p', ':', '/', '/']

def httpsSchemeChars : List Char := ['h', 't', 't', 'p', 's', ':', '/', '/']

/-! ## Lemmas about the string primitives -/

lemma dropWhile_all_append (p : Char → Bool) :
    ∀ (l1 l2 : List Char), (∀ c ∈ l1, p c = true) →
      List.dropWhile p (l1 ++ l2) = List.dropWhile p l2
  | [], _, _ => rfl
  | a :: l1, l2, h => by
      have ha : p a = true := h a (List.mem_cons_self a l1)
      simp only [List.cons_append, List.dropWhile_cons, ha, if_true]
      exact dropWhile_all_append p l1 l2 (fun c hc => h c (List.mem_cons_of_mem a hc))

lemma dropWhile_append_cons (p : Char → Bool) (c : Char) (hc : p c = false) :
    ∀ (l1 l2 : List Char),
      List.dropWhile p (l1 ++ c :: l2) = List.dropWhile p l1 ++ c :: l2
  | [], l2 => by simp [List.dropWhile_cons, hc]
  | a :: l1, l2 => by
      by_cases ha : p a = true
      · simp only [List.cons_append, List.dropWhile_cons, ha, if_true]
        exact dropWhile_append_cons p c hc l1 l2
      · have ha' : p a = false := by
          cases hpa : p a
          · rfl
          · exact absurd hpa ha
        simp [List.dropWhile_cons, ha']

/-- `rstrip` erases a whole appended block of strippable characters:
appending text made only of characters in the strip set does not change the
result. -/
lemma pyRstrip_append_all (strip t : List Char)
    (h : ∀ c ∈ t, strip.contains c = true) (u : List Char) :
    pyRstrip strip (u ++ t) = pyRstrip strip u := by
  unfold pyRstrip
  rw [List.reverse_append,
    dropWhile_all_append _ t.reverse u.reverse
      (fun c hc => h c (List.mem_reverse.mp hc))]

/-- `rstrip` never reaches past a non-strippable character: it distributes
over an append whose left part ends in such a character. -/
lemma pyRstrip_append_mid (strip u : List Char) (c : Char) (v : List Char)
    (hc : strip.contains c = false) :
    pyRstrip strip (u ++ c :: v) = u ++ c :: pyRstrip strip v := by
  unfold pyRstrip
  have h1 : (u ++ c :: v).reverse = v.reverse ++ c :: u.reverse := by simp
  rw [h1, dropWhile_append_cons _ c hc]
  rw [List.reverse_append, List.reverse_cons, List.reverse_reverse]
  simp only [List.append_assoc, List.singleton_append]

lemma pyReplaceHttp_http (r : List Char) :
    pyReplaceHttp (httpSchemeChars ++ r) = httpsSchemeChars ++ pyReplaceHttp r := rfl

lemma pyReplaceHttp_https (r : List Char) :
    pyReplaceHttp (httpsSchemeChars ++ r) = httpsSchemeChars ++ pyReplaceHttp r := rfl

/-! ## Claim theorems: project matching -/

/-- C8: the normalized remote-URL equality used for project matching is
insensitive to a trailing `.git` suffix and to the `http` vs `https` scheme:
appending `.git` to any URL does not change its normal form, prepending
`http://` or `https://` to the same remainder yields the same normal form,
and in particular `https://github.com/u/r.git` compares equal to
`http://github.com/u/r`. -/
theorem C8_normalization_insensitive :
    (∀ u : List Char, normalizeRemoteUrl (u ++ gitSuffixChars) = normalizeRemoteUrl u) ∧
    (∀ r : List Char,
      normalizeRemoteUrl (httpSchemeChars ++ r) = normalizeRemoteUrl (httpsSchemeChars ++ r)) ∧
    normalizeRemoteUrl "https://github.com/u/r.git".toList =
      normalizeRemoteUrl "http://github.com/u/r".toList := by
  refine ⟨?_, ?_, by decide⟩
  · intro u
    unfold normalizeRemoteUrl
    rw [pyRstrip_append_all gitChars gitSuffixChars (by decide) u]
  · intro r
    unfold normalizeRemoteUrl
    have hl : pyRstrip gitChars (httpSchemeChars ++ r) =
        ['h', 't', 't', 'p', ':', '/'] ++ '/' :: pyRstrip gitChars r := by
      exact pyRstrip_append_mid gitChars ['h', 't', 't', 'p', ':', '/'] '/' r (by decide)
    have hr : pyRstrip gitChars (httpsSchemeChars ++ r) =
        ['h', 't', 't', 'p', 's', ':', '/'] ++ '/' :: pyRstrip gitChars r := by
      exact pyRstrip_append_mid gitChars ['h', 't', 't', 'p', 's', ':', '/'] '/' r (by decide)
    rw [hl, hr]
    have h2 : (['h', 't', 't', 'p', ':', '/'] ++ '/' :: pyRstrip gitChars r) =
        httpSchemeChars ++ pyRstrip gitChars r := rfl
    have h3 : (['h', 't', 't', 'p', 's', ':', '/'] ++ '/' :: pyRstrip gitChars r) =
        httpsSchemeChars ++ pyRstrip gitChars r := rfl
    rw [h2, h3, pyReplaceHttp_http, pyReplaceHttp_https]

/-- C10: the `rstrip('.git')` in `projects_match` strips trailing characters
drawn from the set `{., g, i, t}` rather than one literal `.git` suffix:
`https://github.com/u/ab` and `https://github.com/u/abt` are distinct URLs,
neither obtained from the other by appending `.git`, yet they normalize
identically and `projects_match` (hence `detect_switch`) treats two projects
at different paths carrying them as the same project. -/
def c10ProjectA : PyProject :=
  { absolute_path := some "/home/a".toList,
    git_remote_url := some "https://github.com/u/ab".toList }

def c10ProjectB : PyProject :=
  { absolute_path := some "/home/b".toList,
    git_remote_url := some "https://github.com/u/abt".toList }

theorem C10_rstrip_strips_char_set :
    "https://github.com/u/ab".toList ≠ "https://github.com/u/abt".toList ∧
    "https://github.com/u/abt".toList ≠ "https://github.com/u/ab".toList ++ gitSuffixChars ∧
    "https://github.com/u/ab".toList ≠ "https://github.com/u/abt".toList ++ gitSuffixChars ∧
    normalizeRemoteUrl "https://github.com/u/ab".toList =
      normalizeRemoteUrl "https://github.com/u/abt".toList ∧
    projects_match id c10ProjectA c10ProjectB = true ∧
    (detect_switch id c10ProjectA (some { project := some c10ProjectB })).1 = false := by
  refine ⟨by decide, by decide, by decide, by decide, by decide, by decide⟩

/-- C2: for the spec-modelled `ProjectSwitchDetector` comparison (its source
file is absent from src), two metadata records with equal paths whose
remotes differ after normalization are decided to be different projects: a
`switch_type=remote` switch is detected. -/
theorem C2_remote_switch_detected (cfg : SpecSwitchConfig)
    (prev cur : SpecProjectMeta)
    (hPath : prev.absolute_path = cur.absolute_path)
    (hRemote : specNormalizeRemote prev.git_remote_url ≠
      specNormalizeRemote cur.git_remote_url) :
    specDetectSwitchType cfg prev cur = some SwitchType.remote := by
  have h1 : ¬(cur.absolute_path ≠ prev.absolute_path) := by simp [hPath]
  have h2 : specNormalizeRemote cur.git_remote_url ≠
      specNormalizeRemote prev.git_remote_url := fun h => hRemote h.symm
  simp [specDetectSwitchType, h1, h2]

def c2PrevMeta : SpecProjectMeta :=
  { name := "proj".toList, absolute_path := "/home/p".toList,
    git_remote_url := "https://github.com/u/a".toList, git_branch := "main".toList }

def c2CurMeta : SpecProjectMeta :=
  { name := "proj".toList, absolute_path := "/home/p".toList,
    git_remote_url := "https://github.com/u/b".toList, git_branch := "main".toList }

theorem C2_remote_switch_detected_witness :
    specDetectSwitchType { detect_branch_switch := true, major_branches := [] }
      c2PrevMeta c2CurMeta = some SwitchType.remote :=
  C2_remote_switch_detected _ c2PrevMeta c2CurMeta rfl (by decide)

/-! ## Lemmas about the evaluation loop -/

lemma evaluate_triggers_gate_pass (budget : BudgetConfig) (st : EngineState)
    (regs : List DetectorImpl) (prompt : String) (ctx : List (String × PyVal))
    (h : check_budget budget.max_tokens_per_session st.tokens_used 0 = true) :
    evaluate_triggers budget st regs prompt ctx =
      evalDetectorLoop budget.max_tokens_per_session st.tokens_used prompt ctx
        (get_enabled_detectors regs) := by
  simp [evaluate_triggers, h]

lemma enabled_cons (d : DetectorImpl) (ds : List DetectorImpl)
    (h : d.enabled = true) :
    get_enabled_detectors (d :: ds) = d :: get_enabled_detectors ds := by
  simp [get_enabled_detectors, List.filter_cons, h]

lemma loop_accept (maxT used : Int) (prompt : String) (ctx : List (String × PyVal))
    (d : DetectorImpl) (ds : List DetectorImpl) (r : TriggerResult)
    (hEv : d.evaluate prompt ctx = Except.ok (some r))
    (hTr : r.triggered = true)
    (hB : check_budget maxT used r.estimated_tokens = true) :
    evalDetectorLoop maxT used prompt ctx (d :: ds) = (some r, [d.name]) := by
  simp [evalDetectorLoop, hEv, hTr, hB]

lemma loop_continue_error (maxT used : Int) (prompt : String)
    (ctx : List (String × PyVal)) (d : DetectorImpl) (ds : List DetectorImpl)
    (e : String) (hEv : d.evaluate prompt ctx = Except.error e) :
    evalDetectorLoop maxT used prompt ctx (d :: ds) =
      ((evalDetectorLoop maxT used prompt ctx ds).1,
        d.name :: (evalDetectorLoop maxT used prompt ctx ds).2) := by
  simp [evalDetectorLoop, hEv]

lemma loop_continue_reject (maxT used : Int) (prompt : String)
    (ctx : List (String × PyVal)) (d : DetectorImpl) (ds : List DetectorImpl)
    (r : TriggerResult)
    (hEv : d.evaluate prompt ctx = Except.ok (some r))
    (hTr : r.triggered = true)
    (hB : check_budget maxT used r.estimated_tokens = false) :
    evalDetectorLoop maxT used prompt ctx (d :: ds) =
      ((evalDetectorLoop maxT used prompt ctx ds).1,
        d.name :: (evalDetectorLoop maxT used prompt ctx ds).2) := by
  simp [evalDetectorLoop, hEv, hTr, hB]

lemma record_trigger_invariant (st : EngineState) (tr : TriggerResult)
    (t : Int) (ts : String) (h : stateInvariant st) :
    stateInvariant (record_trigger st tr t ts) := by
  simp only [stateInvariant, record_trigger, List.map_append, List.sum_append,
    List.map_cons, List.map_nil, List.sum_cons, List.sum_nil] at h ⊢
  omega

/-! ## Claim theorems: the trigger engine -/

/-- C1 (amended): the global budget gate of `evaluate_triggers` fires when
`tokens_used` strictly exceeds `max_tokens_per_session` (the gate condition
is `tokens_used + 0 <= max`): in that case the call returns none and no
detector is evaluated. -/
theorem C1_global_gate_strict (budget : BudgetConfig) (st : EngineState)
    (registry : List DetectorImpl) (prompt : String) (ctx : List (String × PyVal))
    (h : budget.max_tokens_per_session < st.tokens_used) :
    evaluate_triggers budget st registry prompt ctx = (none, []) := by
  have hb : check_budget budget.max_tokens_per_session st.tokens_used 0 = false := by
    simp only [check_budget, decide_eq_false_iff_not]
    omega
  simp [evaluate_triggers, hb]

def stOverBudget : EngineState :=
  { session_id := "s", session_start := "t", tokens_used := 101, triggers_fired := [] }

theorem C1_global_gate_strict_witness :
    evaluate_triggers { max_tokens_per_session := 100, max_tokens_per_trigger := 500 }
      stOverBudget [] "p" [] = (none, []) :=
  C1_global_gate_strict _ stOverBudget [] "p" [] (by decide)

def zeroCostResult : TriggerResult :=
  { triggered := true, confidence := 1, estimated_tokens := 0,
    query_type := "keyword_search", query_params := [], reason := "zero-cost" }

def zeroCostDetector : DetectorImpl :=
  { name := "zero_cost", priority := 1, enabled := true,
    evaluate := fun _ _ => Except.ok (some zeroCostResult) }

def stAtBudgetCap : EngineState :=
  { session_id := "s", session_start := "t", tokens_used := 100, triggers_fired := [] }

/-- C1 is false as stated: with `tokens_used = max_tokens_per_session = 100`
(so `tokens_used >= max_tokens_per_session`), `evaluate_triggers` evaluates
the registered detector and returns its zero-cost trigger instead of
returning none without evaluating any detector. -/
theorem C1_counterexample :
    stAtBudgetCap.tokens_used ≥ (100 : Int) ∧
    evaluate_triggers { max_tokens_per_session := 100, max_tokens_per_trigger := 500 }
      stAtBudgetCap [zeroCostDetector] "p" [] = (some zeroCostResult, ["zero_cost"]) :=
  ⟨by decide, rfl⟩

/-- C3: evaluating the code at the failing input: `MemoryTriggerEngine`
construction with the built-in default configuration (which enables
`project_switch` and `keyword`) leaves the registry empty — `__init__`
performs no auto-registration, contradicting the engine's tests and the
`load_detectors` docstring. -/
theorem C3_init_registry_empty :
    (engineInit defaultEngineConfig (freshState "s" "t")).registry = [] ∧
    defaultEngineConfig.detectors.project_switch.enabled = true ∧
    defaultEngineConfig.detectors.keyword.enabled = true ∧
    get_enabled_detectors (engineInit defaultEngineConfig (freshState "s" "t")).registry = [] :=
  ⟨rfl, rfl, rfl, rfl⟩

/-- C4: for two enabled detectors with `d1.priority < d2.priority` in the
same registry (registered in either order), if both would trigger and d1's
result passes the per-trigger budget check, `evaluate_triggers` returns d1's
result and d2's `evaluate` is never invoked. -/
theorem C4_priority_short_circuit (budget : BudgetConfig) (st : EngineState)
    (d1 d2 : DetectorImpl) (prompt : String) (ctx : List (String × PyVal))
    (r1 r2 : TriggerResult)
    (hName : d1.name ≠ d2.name)
    (hPrio : d1.priority < d2.priority)
    (hEn1 : d1.enabled = true) (hEn2 : d2.enabled = true)
    (hGate : check_budget budget.max_tokens_per_session st.tokens_used 0 = true)
    (hEv1 : d1.evaluate prompt ctx = Except.ok (some r1))
    (hTr1 : r1.triggered = true)
    (hB1 : check_budget budget.max_tokens_per_session st.tokens_used r1.estimated_tokens = true)
    (hEv2 : d2.evaluate prompt ctx = Except.ok (some r2))
    (hTr2 : r2.triggered = true) :
    evaluate_triggers budget st (register (register [] d1) d2) prompt ctx =
      (some r1, [d1.name]) ∧
    evaluate_triggers budget st (register (register [] d2) d1) prompt ctx =
      (some r1, [d1.name]) ∧
    d2.name ∉ (evaluate_triggers budget st (register (register [] d1) d2) prompt ctx).2 ∧
    d2.name ∉ (evaluate_triggers budget st (register (register [] d2) d1) prompt ctx).2 := by
  have hreg1 : register (register [] d1) d2 = [d1, d2] := by
    simp [register, sortByPriority, orderedInsertDet, hName, le_of_lt hPrio]
  have hreg2 : register (register [] d2) d1 = [d1, d2] := by
    have h2 : ¬d2.priority ≤ d1.priority := not_le.mpr hPrio
    simp [register, sortByPriority, orderedInsertDet, Ne.symm hName, h2]
  have hfil : get_enabled_detectors [d1, d2] = [d1, d2] := by
    simp [get_enabled_detectors, List.filter_cons, hEn1, hEn2]
  have hrun : evaluate_triggers budget st [d1, d2] prompt ctx = (some r1, [d1.name]) := by
    rw [evaluate_triggers_gate_pass _ _ _ _ _ hGate, hfil]
    exact loop_accept _ _ _ _ _ _ _ hEv1 hTr1 hB1
  have hmem : d2.name ∉ [d1.name] := by
    simp only [List.mem_singleton]
    exact fun h => hName h.symm
  refine ⟨by rw [hreg1]; exact hrun, by rw [hreg2]; exact hrun, ?_, ?_⟩
  · rw [hreg1, hrun]; exact hmem
  · rw [hreg2, hrun]; exact hmem

def c4Result1 : TriggerResult :=
  { triggered := true, confidence := 9 / 10, estimated_tokens := 150,
    query_type := "keyword_search", query_params := [], reason := "r1" }

def c4Result2 : TriggerResult :=
  { triggered := true, confidence := 8 / 10, estimated_tokens := 200,
    query_type := "project_context", query_params := [], reason := "r2" }

def c4Det1 : DetectorImpl :=
  { name := "det1", priority := 1, enabled := true,
    evaluate := fun _ _ => Except.ok (some c4Result1) }

def c4Det2 : DetectorImpl :=
  { name := "det2", priority := 2, enabled := true,
    evaluate := fun _ _ => Except.ok (some c4Result2) }

theorem C4_priority_short_circuit_witness :
    evaluate_triggers { max_tokens_per_session := 5000, max_tokens_per_trigger := 500 }
      (freshState "s" "t") (register (register [] c4Det1) c4Det2) "p" [] =
      (some c4Result1, ["det1"]) :=
  (C4_priority_short_circuit _ _ c4Det1 c4Det2 "p" [] c4Result1 c4Result2
    (by decide) (by decide) rfl rfl (by decide) rfl rfl (by decide) rfl rfl).1

/-- C5: a triggering detector result is accepted exactly when
`tokens_used + estimated_tokens <= max_tokens_per_session`; on failure the
candidate is skipped and evaluation continues with the remaining detectors;
in particular with budget 1000 and 750 used, a 300-token candidate is
rejected and a 250-token one accepted. -/
theorem C5_per_trigger_admission (budget : BudgetConfig) (st : EngineState)
    (d : DetectorImpl) (ds : List DetectorImpl) (prompt : String)
    (ctx : List (String × PyVal)) (r : TriggerResult)
    (hGate : check_budget budget.max_tokens_per_session st.tokens_used 0 = true)
    (hEn : d.enabled = true)
    (hEv : d.evaluate prompt ctx = Except.ok (some r))
    (hTr : r.triggered = true) :
    (check_budget budget.max_tokens_per_session st.tokens_used r.estimated_tokens = true →
      evaluate_triggers budget st (d :: ds) prompt ctx = (some r, [d.name])) ∧
    (check_budget budget.max_tokens_per_session st.tokens_used r.estimated_tokens = false →
      evaluate_triggers budget st (d :: ds) prompt ctx =
        ((evalDetectorLoop budget.max_tokens_per_session st.tokens_used prompt ctx
            (get_enabled_detectors ds)).1,
          d.name :: (evalDetectorLoop budget.max_tokens_per_session st.tokens_used prompt ctx
            (get_enabled_detectors ds)).2)) ∧
    check_budget 1000 750 300 = false ∧ check_budget 1000 750 250 = true := by
  refine ⟨?_, ?_, by decide, by decide⟩
  · intro hB
    rw [evaluate_triggers_gate_pass _ _ _ _ _ hGate, enabled_cons _ _ hEn]
    exact loop_accept _ _ _ _ _ _ _ hEv hTr hB
  · intro hB
    rw [evaluate_triggers_gate_pass _ _ _ _ _ hGate, enabled_cons _ _ hEn]
    exact loop_continue_reject _ _ _ _ _ _ _ hEv hTr hB

def c5State : EngineState :=
  { session_id := "s", session_start := "t", tokens_used := 750, triggers_fired := [] }

def c5Result300 : TriggerResult :=
  { triggered := true, confidence := 9 / 10, estimated_tokens := 300,
    query_type := "keyword_search", query_params := [], reason := "costly" }

def c5Det300 : DetectorImpl :=
  { name := "costly", priority := 1, enabled := true,
    evaluate := fun _ _ => Except.ok (some c5Result300) }

theorem C5_per_trigger_admission_witness :
    evaluate_triggers { max_tokens_per_session := 1000, max_tokens_per_trigger := 500 }
      c5State (c5Det300 :: []) "p" [] = (none, ["costly"]) := by
  have h := (C5_per_trigger_admission
    { max_tokens_per_session := 1000, max_tokens_per_trigger := 500 }
    c5State c5Det300 [] "p" [] c5Result300 (by decide) rfl rfl rfl).2.1 (by decide)
  rw [h]
  rfl

/-- C6: `tokens_used = sum of tokens over triggers_fired` holds for a fresh
state, and is preserved by `_record_trigger` (which adds the same
`actual_tokens` to `tokens_used` and as the `tokens` field of the appended
entry) and hence by `query_memory`. -/
theorem C6_tokens_invariant :
    (∀ sid start, stateInvariant (freshState sid start)) ∧
    (∀ (st : EngineState) (tr : TriggerResult) (t : Int) (ts : String),
      stateInvariant st →
        stateInvariant (record_trigger st tr t ts) ∧
        (record_trigger st tr t ts).tokens_used = st.tokens_used + t ∧
        ((record_trigger st tr t ts).triggers_fired.map FiredTrigger.tokens) =
          (st.triggers_fired.map FiredTrigger.tokens) ++ [t]) ∧
    (∀ (client : MemClientModel) (st : EngineState) (tr : TriggerResult) (ts : String),
      stateInvariant st → stateInvariant (query_memory client st tr ts).2) := by
  refine ⟨?_, ?_, ?_⟩
  · intro sid start
    simp [stateInvariant, freshState]
  · intro st tr t ts h
    exact ⟨record_trigger_invariant st tr t ts h, rfl, by simp [record_trigger]⟩
  · intro client st tr ts h
    unfold query_memory
    cases hav : client.available
    · simpa using h
    · simp only [Bool.not_true, Bool.false_eq_true, if_false]
      split <;> (try split) <;>
        first
          | exact record_trigger_invariant _ _ _ _ h
          | exact h

def c6Trigger : TriggerResult :=
  { triggered := true, confidence := 9 / 10, estimated_tokens := 150,
    query_type := "keyword_search", query_params := [], reason := "kw" }

theorem C6_tokens_invariant_witness :
    stateInvariant (record_trigger (freshState "s" "t0") c6Trigger 150 "t1") :=
  (C6_tokens_invariant.2.1 (freshState "s" "t0") c6Trigger 150 "t1"
    (C6_tokens_invariant.1 "s" "t0")).1

/-- C7: an exception raised by a detector's `evaluate` does not propagate
out of `evaluate_triggers` and does not stop the loop: the raising detector
is treated as no trigger and evaluation continues, and a lower-priority
detector's accepted trigger is returned in the same call. -/
theorem C7_detector_fault_isolated (budget : BudgetConfig) (st : EngineState)
    (d : DetectorImpl) (ds : List DetectorImpl) (prompt : String)
    (ctx : List (String × PyVal)) (e : String)
    (hGate : check_budget budget.max_tokens_per_session st.tokens_used 0 = true)
    (hEn : d.enabled = true)
    (hErr : d.evaluate prompt ctx = Except.error e) :
    evaluate_triggers budget st (d :: ds) prompt ctx =
      ((evalDetectorLoop budget.max_tokens_per_session st.tokens_used prompt ctx
          (get_enabled_detectors ds)).1,
        d.name :: (evalDetectorLoop budget.max_tokens_per_session st.tokens_used prompt ctx
          (get_enabled_detectors ds)).2) ∧
    (∀ (d2 : DetectorImpl) (r2 : TriggerResult),
      d2.enabled = true →
      d2.evaluate prompt ctx = Except.ok (some r2) →
      r2.triggered = true →
      check_budget budget.max_tokens_per_session st.tokens_used r2.estimated_tokens = true →
      evaluate_triggers budget st (d :: d2 :: ds) prompt ctx =
        (some r2, [d.name, d2.name])) := by
  constructor
  · rw [evaluate_triggers_gate_pass _ _ _ _ _ hGate, enabled_cons _ _ hEn]
    exact loop_continue_error _ _ _ _ _ _ _ hErr
  · intro d2 r2 hEn2 hEv2 hTr2 hB2
    rw [evaluate_triggers_gate_pass _ _ _ _ _ hGate, enabled_cons _ _ hEn,
      enabled_cons _ _ hEn2]
    rw [loop_continue_error _ _ _ _ _ _ _ hErr,
      loop_accept _ _ _ _ _ _ _ hEv2 hTr2 hB2]

def c7BadDetector : DetectorImpl :=
  { name := "bad", priority := 1, enabled := true,
    evaluate := fun _ _ => Except.error "ValueError" }

def c7GoodResult : TriggerResult :=
  { triggered := true, confidence := 9 / 10, estimated_tokens := 150,
    query_type := "keyword_search", query_params := [], reason := "good" }

def c7GoodDetector : DetectorImpl :=
  { name := "good", priority := 2, enabled := true,
    evaluate := fun _ _ => Except.ok (some c7GoodResult) }

theorem C7_detector_fault_isolated_witness :
    evaluate_triggers { max_tokens_per_session := 5000, max_tokens_per_trigger := 500 }
      (freshState "s" "t") (c7BadDetector :: c7GoodDetector :: []) "p" [] =
      (some c7GoodResult, ["bad", "good"]) :=
  (C7_detector_fault_isolated _ _ c7BadDetector [] "p" [] "ValueError"
    (by decide) rfl rfl).2 c7GoodDetector c7GoodResult rfl rfl rfl (by decide)

/-! ## Claim theorem: budget overshoot in query_memory (C9) -/

def c9BigResult : PyVal :=
  PyVal.pyDict
    [("entities".toList, PyVal.pyList [PyVal.pyStr (List.replicate 400 'a')]),
     ("relations".toList, PyVal.pyList [])]

def c9Client : MemClientModel :=
  { available := true, respond := fun _ _ => some c9BigResult }

def c9Trigger : TriggerResult :=
  { triggered := true, confidence := 9 / 10, estimated_tokens := 50,
    query_type := "keyword_search", query_params := [], reason := "kw" }

def c9State : EngineState :=
  { session_id := "s", session_start := "t", tokens_used := 900, triggers_fired := [] }

set_option maxRecDepth 100000 in
/-- C9: the session budget is not a hard cap on recorded usage: with budget
1000 and 900 used, a trigger estimating 50 tokens passes the admission
check, yet `query_memory` records `estimate_tokens(result)` — the length of
the serialized result divided by 4 — driving `tokens_used` above the
budget. -/
theorem C9_budget_overshoot :
    check_budget 1000 c9State.tokens_used c9Trigger.estimated_tokens = true ∧
    (query_memory c9Client c9State c9Trigger "t2").1 = some c9BigResult ∧
    (query_memory c9Client c9State c9Trigger "t2").2.tokens_used =
      c9State.tokens_used + estimate_tokens (some c9BigResult) ∧
    (query_memory c9Client c9State c9Trigger "t2").2.tokens_used > 1000 := by
  refine ⟨by decide, rfl, rfl, by decide⟩

end MemSys
